import Mathlib

/-!
Shallow embedding of the Volcano BLE session manager
(custom_components/volcano_integration/bluetooth_coordinator.py together
with the constants of custom_components/volcano_integration/const.py).

Bytes are modelled as natural numbers below 256, byte strings as lists of
naturals, Python floats as rationals, and the mutable manager object as an
explicit state record.  Command methods return the successor state together
with the list of GATT writes they issue; fallible transport operations take
an explicit success flag (or the bytes the transport returned).
-/

namespace Volcano

/-- Status string from const.py. -/
def BT_STATUS_DISCONNECTED : String := "DISCONNECTED"

/-- Status string from const.py. -/
def BT_STATUS_CONNECTING : String := "CONNECTING"

/-- Status string from const.py. -/
def BT_STATUS_CONNECTED : String := "CONNECTED"

/-- Status string from const.py. -/
def BT_STATUS_ERROR : String := "ERROR"

/-- Vibration bit mask from const.py (bit 10). -/
def VIBRATION_BIT_MASK : Nat := 0x0400

/-- Current-temperature characteristic UUID from const.py. -/
def UUID_TEMP : String := "10110001-5354-4f52-5a26-4249434b454c"

/-- Heater-setpoint characteristic UUID from const.py. -/
def UUID_HEATER_SETPOINT : String := "10110003-5354-4f52-5a26-4249434b454c"

/-- LED-brightness characteristic UUID from const.py. -/
def UUID_LED_BRIGHTNESS : String := "10110005-5354-4f52-5a26-4249434b454c"

/-- Auto-shutoff enable characteristic UUID from const.py. -/
def UUID_AUTO_SHUT_OFF : String := "1011000c-5354-4f52-5a26-4249434b454c"

/-- Auto-shutoff duration characteristic UUID from const.py. -/
def UUID_AUTO_SHUT_OFF_SETTING : String := "1011000d-5354-4f52-5a26-4249434b454c"

/-- Vibration control register UUID from const.py. -/
def REGISTER3_UUID : String := "1010000e-5354-4f52-5a26-4249434b454c"

/-- Python int.from_bytes(data, byteorder="little") on a list of byte values. -/
def intFromBytesLE (data : List Nat) : Nat :=
  data.foldr (fun b acc => b + 256 * acc) 0

/-- Python n.to_bytes(2, byteorder="little"); faithful for n below 2^16
    (Python raises OverflowError above that, which the claims exclude). -/
def toBytesLE2 (n : Nat) : List Nat :=
  [n % 256, n / 256 % 256]

/-- Python n.to_bytes(4, byteorder="little"); faithful for n below 2^32. -/
def toBytesLE4 (n : Nat) : List Nat :=
  [n % 256, n / 256 % 256, n / 65536 % 256, n / 16777216 % 256]

/-- The VALID_PATTERNS table of bluetooth_coordinator.py, as an association
    list from the 2-byte pattern to the (heat_state, pump_state) strings. -/
def VALID_PATTERNS : List ((Nat × Nat) × (String × String)) :=
  [((0x23, 0x00), ("ON", "OFF")),
   ((0x00, 0x00), ("OFF", "OFF")),
   ((0x00, 0x30), ("OFF", "ON")),
   ((0x23, 0x30), ("ON", "ON")),
   ((0x23, 0x06), ("ON", "ON (0x06)")),
   ((0x23, 0x26), ("ON", "ON (0x26)")),
   ((0x23, 0x02), ("ON", "ON (0x02)")),
   ((0x23, 0x36), ("ON", "ON (0x36)"))]

/-- Uppercase hexadecimal digit (Python %X formatting) for n below 16. -/
def hexDigit (n : Nat) : Char :=
  if n < 10 then Char.ofNat (48 + n) else Char.ofNat (55 + n)

/-- Python f-string formatting of a byte value b below 256 as 0x followed by
    two uppercase hexadecimal digits, as used for unrecognized patterns. -/
def hexByte (b : Nat) : String :=
  String.mk ['0', 'x', hexDigit (b / 16), hexDigit (b % 16)]

/-- Pattern lookup of notification_handler: a table hit yields the table
    entry, a miss yields the hex strings of the two bytes. -/
def decode_notification (b1 b2 : Nat) : String × String :=
  match VALID_PATTERNS.lookup (b1, b2) with
  | some v => v
  | none => (hexByte b1, hexByte b2)

/-- Temperature payload decoding of _read_temperature: at least two bytes,
    first two little-endian unsigned, divided by 10. -/
def decode_temperature (data : List Nat) : Option ℚ :=
  if 2 ≤ data.length then
    some ((intFromBytesLE (data.take 2) : ℚ) / 10)
  else none

/-- Setpoint payload of set_heater_temperature: the input is clamped by
    max(40.0, min(temp_c, 230.0)); Python int() truncates (equals the floor
    for the clamped nonnegative value); two little-endian bytes. -/
def heater_payload (temp_c : ℚ) : List Nat :=
  toBytesLE2 (Int.toNat ⌊(max 40 (min temp_c 230)) * 10⌋)

/-- Vibration register update of set_vibration: Python computes
    control_value | mask when enabling and control_value & ~mask when
    disabling; for register values below 2^32 the Python unbounded-int
    bitwise and with ~mask equals the land with 0xFFFFFFFF xor mask. -/
def new_control_value (control_value : Nat) (enabled : Bool) : Nat :=
  if enabled then control_value ||| VIBRATION_BIT_MASK
  else control_value &&& (0xFFFFFFFF ^^^ VIBRATION_BIT_MASK)

/-- State record of VolcanoBTManager: the _connected flag, whether _client
    holds a handle, the _bt_status string and the device-attribute mirrors
    the claims touch. -/
structure Manager where
  connected : Bool
  client : Bool
  bt_status : String
  current_temperature : Option ℚ
  heat_state : Option String
  pump_state : Option String
  auto_shut_off : Option String
  auto_shut_off_setting : Option Nat
  led_brightness : Option Nat
  vibration : Option String
  deriving DecidableEq, Repr

/-- One GATT write issued through the transport. -/
structure GattWrite where
  uuid : String
  payload : List Nat
  deriving DecidableEq, Repr

/-- Manager state right after __init__: everything None, DISCONNECTED. -/
def initManager : Manager :=
  { connected := false, client := false, bt_status := BT_STATUS_DISCONNECTED,
    current_temperature := none, heat_state := none, pump_state := none,
    auto_shut_off := none, auto_shut_off_setting := none,
    led_brightness := none, vibration := none }

/-- Manager state while connected, as after a successful _connect. -/
def connectedManager : Manager :=
  { initManager with connected := true, client := true,
                     bt_status := BT_STATUS_CONNECTED }

/-- Property setter of bt_status: stores the value and notifies the
    registered sensors only when the value differs from the current one.
    The boolean result records whether _notify_sensors ran. -/
def set_bt_status (s : Manager) (value : String) : Manager × Bool :=
  if s.bt_status ≠ value then ({ s with bt_status := value }, true)
  else (s, false)

/-- Pump-notification callback: with at least two bytes of payload it sets
    heat_state and pump_state from the pattern lookup; shorter payloads
    change nothing (sensors are notified either way). -/
def notification_handler (s : Manager) (data : List Nat) : Manager :=
  if 2 ≤ data.length then
    { s with heat_state := some (decode_notification (data.getD 0 0) (data.getD 1 0)).1,
             pump_state := some (decode_notification (data.getD 0 0) (data.getD 1 0)).2 }
  else s

/-- Body of _read_temperature: gated on connection; a successful read stores
    the decoded value (None on a short payload); a transport error sets
    ERROR and runs _disconnect, which drops the client, clears _connected
    and leaves bt_status DISCONNECTED. -/
def read_temperature (ok : Bool) (data : List Nat) (s : Manager) : Manager :=
  if s.connected && s.client then
    if ok then { s with current_temperature := decode_temperature data }
    else { s with bt_status := BT_STATUS_DISCONNECTED,
                  connected := false, client := false }
  else s

/-- Body of _read_auto_shut_off_setting: gated on connection; with at least
    two bytes it stores the little-endian seconds divided by 60 (Python
    floor division); shorter payloads store None. -/
def read_auto_shut_off_setting (data : List Nat) (s : Manager) : Manager :=
  if s.connected && s.client then
    if 2 ≤ data.length then
      { s with auto_shut_off_setting := some (intFromBytesLE (data.take 2) / 60) }
    else { s with auto_shut_off_setting := none }
  else s

/-- Body of _read_vibration: gated on connection; with at least four bytes
    the mirror reflects whether the vibration bit is set, otherwise None. -/
def read_vibration (data : List Nat) (s : Manager) : Manager :=
  if s.connected && s.client then
    if 4 ≤ data.length then
      let v := intFromBytesLE (data.take 4)
      { s with vibration := some (if v &&& VIBRATION_BIT_MASK ≠ 0 then "ON" else "OFF") }
    else { s with vibration := none }
  else s

/-- write_gatt_command: gated on connection; a write failure is only logged,
    so the state is returned unchanged in every branch. -/
def write_gatt_command (s : Manager) (write_uuid : String) (payload : List Nat) :
    Manager × List GattWrite :=
  if s.connected && s.client then (s, [⟨write_uuid, payload⟩])
  else (s, [])

/-- set_heater_temperature: gated on connection; writes the clamped,
    truncated tenths payload; no mirror field exists, so the state is
    unchanged whether the write succeeds or fails. -/
def set_heater_temperature (s : Manager) (temp_c : ℚ) : Manager × List GattWrite :=
  if s.connected && s.client then
    (s, [⟨UUID_HEATER_SETPOINT, heater_payload temp_c⟩])
  else (s, [])

/-- set_led_brightness: gated on connection; clamps to 0..100, writes one
    byte; only a successful write updates the mirror and notifies. -/
def set_led_brightness (ok : Bool) (s : Manager) (brightness : Int) :
    Manager × List GattWrite :=
  if s.connected && s.client then
    let clamped := max 0 (min brightness 100)
    let w : GattWrite := ⟨UUID_LED_BRIGHTNESS, [clamped.toNat]⟩
    if ok then ({ s with led_brightness := some clamped.toNat }, [w])
    else (s, [w])
  else (s, [])

/-- set_auto_shutoff: gated on connection; writes one byte 0x01/0x00; only
    a successful write updates the mirror. -/
def set_auto_shutoff (ok : Bool) (s : Manager) (enabled : Bool) :
    Manager × List GattWrite :=
  if s.connected && s.client then
    let w : GattWrite := ⟨UUID_AUTO_SHUT_OFF, [if enabled then 1 else 0]⟩
    if ok then ({ s with auto_shut_off := some (if enabled then "ON" else "OFF") }, [w])
    else (s, [w])
  else (s, [])

/-- set_auto_shutoff_setting: gated on connection; writes minutes times 60
    as two little-endian bytes; only a successful write updates the mirror. -/
def set_auto_shutoff_setting (ok : Bool) (s : Manager) (minutes : Nat) :
    Manager × List GattWrite :=
  if s.connected && s.client then
    let w : GattWrite := ⟨UUID_AUTO_SHUT_OFF_SETTING, toBytesLE2 (minutes * 60)⟩
    if ok then ({ s with auto_shut_off_setting := some minutes }, [w])
    else (s, [w])
  else (s, [])

/-- set_vibration: gated on connection; reads the control register
    (controlData), requires at least four bytes, writes the four-byte
    register back with only the vibration bit changed, re-reads the
    register (reRead) and finally overwrites the mirror from the request. -/
def set_vibration (s : Manager) (controlData reRead : List Nat) (enabled : Bool) :
    Manager × List GattWrite :=
  if s.connected && s.client then
    if 4 ≤ controlData.length then
      let v := intFromBytesLE (controlData.take 4)
      ({ read_vibration reRead s with
           vibration := some (if enabled then "ON" else "OFF") },
       [⟨REGISTER3_UUID, toBytesLE4 (new_control_value v enabled)⟩])
    else (s, [])
  else (s, [])

/-- stop(): setting the stop event makes _run exit its loop and run
    _disconnect (client dropped, _connected cleared, DISCONNECTED), after
    which stop sets bt_status to DISCONNECTED again through the setter. -/
def stop (s : Manager) : Manager :=
  { s with client := false, connected := false,
           bt_status := BT_STATUS_DISCONNECTED }

/-- async_user_disconnect: returns immediately when not connected,
    otherwise awaits stop(). -/
def async_user_disconnect (s : Manager) : Manager :=
  if s.connected then stop s else s

/-- Setpoint payload following the words of the specification, for the
    refinement comparison of claim C3: clamp, multiply by 10, round to the
    nearest integer, encode two little-endian bytes. -/
def heater_payload_spec_rounded (temp_c : ℚ) : List Nat :=
  toBytesLE2 (Int.toNat (round ((max 40 (min temp_c 230)) * 10)))

/-- Round trip of the two-byte little-endian codec below 2^16. -/
lemma intFromBytesLE_toBytesLE2 (n : Nat) (h : n < 65536) :
    intFromBytesLE (toBytesLE2 n) = n := by
  simp [intFromBytesLE, toBytesLE2]
  omega

/-- Bits of 0xFFFFFBFF below 32 other than bit 10 are set. -/
lemma mask_bits : ∀ i, i < 32 → i ≠ 10 → Nat.testBit 4294966271 i = true := by
  decide

/-- C1 (amended): a notification payload of at least two bytes sets
    heat_state and pump_state from the pattern lookup; each of the seven
    documented pairs maps to the documented states; a pair outside the
    table in the code maps to the hex strings of the two bytes rather than
    to one fixed Unknown value. -/
theorem c1_notification_decoding (s : Manager) (data : List Nat) (b1 b2 : Nat)
    (rest : List Nat) (hdata : data = b1 :: b2 :: rest) :
    ((notification_handler s data).heat_state = some (decode_notification b1 b2).1 ∧
     (notification_handler s data).pump_state = some (decode_notification b1 b2).2) ∧
    (VALID_PATTERNS.lookup (b1, b2) = none →
      decode_notification b1 b2 = (hexByte b1, hexByte b2)) ∧
    decode_notification 0x23 0x00 = ("ON", "OFF") ∧
    decode_notification 0x00 0x00 = ("OFF", "OFF") ∧
    decode_notification 0x00 0x30 = ("OFF", "ON") ∧
    decode_notification 0x23 0x30 = ("ON", "ON") ∧
    decode_notification 0x23 0x06 = ("ON", "ON (0x06)") ∧
    decode_notification 0x23 0x26 = ("ON", "ON (0x26)") ∧
    decode_notification 0x23 0x36 = ("ON", "ON (0x36)") := by
  subst hdata
  refine ⟨⟨?_, ?_⟩, ?_, by decide, by decide, by decide, by decide, by decide,
    by decide, by decide⟩
  · simp [notification_handler]
  · simp [notification_handler]
  · intro h
    simp [decode_notification, h]

/-- C1 counterexample: (0x12, 0x34) is not in the table, yet the handler
    stores two different hex strings for the two fields, so unlisted pairs
    are not mapped to a single fixed Unknown value. -/
theorem c1_counterexample :
    VALID_PATTERNS.lookup (0x12, 0x34) = none ∧
    (notification_handler connectedManager [0x12, 0x34]).heat_state = some "0x12" ∧
    (notification_handler connectedManager [0x12, 0x34]).pump_state = some "0x34" ∧
    (notification_handler connectedManager [0x12, 0x34]).heat_state ≠
      (notification_handler connectedManager [0x12, 0x34]).pump_state := by
  decide

/-- C1 witness: the amended theorem applied at the unlisted pair (0xFF, 0xFF). -/
theorem c1_witness :
    (notification_handler connectedManager [0xFF, 0xFF]).heat_state = some "0xFF" := by
  have h := c1_notification_decoding connectedManager [0xFF, 0xFF] 0xFF 0xFF [] rfl
  exact h.1.1.trans (by decide)

/-- C2: a successful temperature read of at least two bytes stores the
    unsigned 16-bit little-endian value of the first two bytes divided by
    10; the payload [0xB6, 0x03] yields 95.0. -/
theorem c2_temperature_decoding (s : Manager) (data : List Nat) (b0 b1 : Nat)
    (rest : List Nat) (hconn : s.connected = true) (hcli : s.client = true)
    (hdata : data = b0 :: b1 :: rest) :
    (read_temperature true data s).current_temperature =
      some (((b0 + 256 * b1 : Nat) : ℚ) / 10) ∧
    (read_temperature true [0xB6, 0x03] s).current_temperature = some 95 := by
  subst hdata
  constructor
  · simp [read_temperature, hconn, hcli, decode_temperature, intFromBytesLE]
  · simp [read_temperature, hconn, hcli, decode_temperature, intFromBytesLE]
    norm_num

/-- C2 witness: the theorem applied to the mock payload [0xB6, 0x03]. -/
theorem c2_witness :
    (read_temperature true [0xB6, 0x03] connectedManager).current_temperature =
      some 95 :=
  (c2_temperature_decoding connectedManager [0xB6, 0x03] 0xB6 0x03 [] rfl rfl rfl).2

/-- C3 counterexample: at temp_c = 100.56 °C the code writes the truncated
    tenths value 1005 as [0xED, 0x03], whereas the round-to-nearest payload
    the claim describes holds 1006, i.e. [0xEE, 0x03]. -/
theorem c3_counterexample :
    (set_heater_temperature connectedManager (2514/25)).2 =
      [⟨UUID_HEATER_SETPOINT, [237, 3]⟩] ∧
    heater_payload_spec_rounded (2514/25) = [238, 3] ∧
    ([237, 3] : List Nat) ≠ [238, 3] := by
  have hcl : (max 40 (min ((2514:ℚ)/25) 230)) = 2514/25 := by
    rw [min_eq_left (by norm_num), max_eq_right (by norm_num)]
  have hcode : heater_payload (2514/25) = [237, 3] := by
    rw [heater_payload, hcl]
    norm_num [toBytesLE2]
    decide
  have hspec : heater_payload_spec_rounded (2514/25) = [238, 3] := by
    rw [heater_payload_spec_rounded, hcl, round_eq]
    norm_num [toBytesLE2]
    decide
  refine ⟨?_, hspec, by decide⟩
  simp [set_heater_temperature, connectedManager, initManager, hcode]

/-- C3 (amended): while connected the heater setpoint command writes one
    two-byte little-endian payload holding the clamped temperature times
    ten truncated to an integer (Python int(), the floor of the clamped
    nonnegative value); out-of-range inputs are silently clamped to the
    payload of 40 resp. 230, never rejected; the state is unchanged. -/
theorem c3_setpoint_encoding (s : Manager) (temp_c : ℚ)
    (hconn : s.connected = true) (hcli : s.client = true) :
    (set_heater_temperature s temp_c).2 =
      [⟨UUID_HEATER_SETPOINT,
        toBytesLE2 (Int.toNat ⌊(max 40 (min temp_c 230)) * 10⌋)⟩] ∧
    (set_heater_temperature s temp_c).1 = s ∧
    (temp_c ≤ 40 → heater_payload temp_c = heater_payload 40) ∧
    (230 ≤ temp_c → heater_payload temp_c = heater_payload 230) := by
  refine ⟨?_, ?_, ?_, ?_⟩
  · simp [set_heater_temperature, hconn, hcli, heater_payload]
  · simp [set_heater_temperature, hconn, hcli]
  · intro h
    have hl : max 40 (min temp_c 230) = (40:ℚ) := by
      rw [min_eq_left (le_trans h (by norm_num)), max_eq_left h]
    have hr : max 40 (min (40:ℚ) 230) = (40:ℚ) := by
      rw [min_eq_left (by norm_num), max_self]
    rw [heater_payload, hl, heater_payload, hr]
  · intro h
    have hl : max 40 (min temp_c 230) = (230:ℚ) := by
      rw [min_eq_right h, max_eq_right (by norm_num)]
    have hr : max 40 (min (230:ℚ) 230) = (230:ℚ) := by
      rw [min_self, max_eq_right (by norm_num)]
    rw [heater_payload, hl, heater_payload, hr]

/-- C3 witness: the amended theorem applied at 170 °C gives the two-byte
    payload of 1700 tenths. -/
theorem c3_witness :
    (set_heater_temperature connectedManager 170).2 =
      [⟨UUID_HEATER_SETPOINT, [164, 6]⟩] := by
  have h := (c3_setpoint_encoding connectedManager 170 rfl rfl).1
  rw [h]
  have hcl : (max 40 (min (170:ℚ) 230)) = 170 := by
    rw [min_eq_left (by norm_num), max_eq_right (by norm_num)]
  rw [hcl]
  norm_num [toBytesLE2]
  decide

/-- C4: while not connected, every command method performs no GATT write
    and returns the manager state unchanged. -/
theorem c4_command_gating (s : Manager) (u : String) (p : List Nat) (c : ℚ)
    (b : Int) (e : Bool) (m : Nat) (okb oka okm : Bool)
    (h : s.connected = false) :
    write_gatt_command s u p = (s, []) ∧
    set_heater_temperature s c = (s, []) ∧
    set_led_brightness okb s b = (s, []) ∧
    set_auto_shutoff oka s e = (s, []) ∧
    set_auto_shutoff_setting okm s m = (s, []) := by
  simp [write_gatt_command, set_heater_temperature, set_led_brightness,
        set_auto_shutoff, set_auto_shutoff_setting, h]

/-- C4 witness: the gating theorem applied to the freshly initialized
    (disconnected) manager. -/
theorem c4_witness :
    write_gatt_command initManager UUID_HEATER_SETPOINT [1, 2] = (initManager, []) ∧
    set_heater_temperature initManager 100 = (initManager, []) ∧
    set_led_brightness true initManager 50 = (initManager, []) ∧
    set_auto_shutoff true initManager true = (initManager, []) ∧
    set_auto_shutoff_setting true initManager 30 = (initManager, []) :=
  c4_command_gating initManager UUID_HEATER_SETPOINT [1, 2] 100 50 true 30
    true true true rfl

/-- C5 counterexample: a failed LED-brightness write while connected leaves
    the manager fully connected, with status CONNECTED and the client
    handle in place — no tear-down, no error status, no reconnect cycle. -/
theorem c5_counterexample :
    (set_led_brightness false connectedManager 50).1 = connectedManager ∧
    (set_led_brightness false connectedManager 50).1.connected = true ∧
    (set_led_brightness false connectedManager 50).1.bt_status = BT_STATUS_CONNECTED := by
  decide

/-- C5 (amended): a command write failure is only logged: each command
    returns the state unchanged when its write fails, whereas a failed
    temperature poll is the path that tears the connection down and leaves
    the manager disconnected for the reconnect loop. -/
theorem c5_write_failure (s : Manager) (u : String) (p d : List Nat) (c : ℚ)
    (b : Int) (e : Bool) (m : Nat) :
    (write_gatt_command s u p).1 = s ∧
    (set_heater_temperature s c).1 = s ∧
    (set_led_brightness false s b).1 = s ∧
    (set_auto_shutoff false s e).1 = s ∧
    (set_auto_shutoff_setting false s m).1 = s ∧
    (s.connected = true → s.client = true →
      (read_temperature false d s).connected = false ∧
      (read_temperature false d s).client = false ∧
      (read_temperature false d s).bt_status = BT_STATUS_DISCONNECTED) := by
  cases hc : (s.connected && s.client) <;>
    refine ⟨?_, ?_, ?_, ?_, ?_, ?_⟩ <;>
      first
        | (intro hconn hcli
           simp [read_temperature, hconn, hcli])
        | simp [write_gatt_command, set_heater_temperature, set_led_brightness,
                set_auto_shutoff, set_auto_shutoff_setting, hc]

/-- C5 witness: the amended theorem applied to the connected manager. -/
theorem c5_witness :
    (write_gatt_command connectedManager UUID_LED_BRIGHTNESS [50]).1 = connectedManager ∧
    (read_temperature false [] connectedManager).connected = false ∧
    (read_temperature false [] connectedManager).bt_status = BT_STATUS_DISCONNECTED := by
  have h := c5_write_failure connectedManager UUID_LED_BRIGHTNESS [50] [] 100 50 true 30
  exact ⟨h.1, (h.2.2.2.2.2 rfl rfl).1, (h.2.2.2.2.2 rfl rfl).2.2⟩

/-- C6: for every celsius value in [40, 230], decoding the setpoint payload
    produced by the encoder recovers the input to within 0.1 °C. -/
theorem c6_codec_round_trip (c : ℚ) (h1 : 40 ≤ c) (h2 : c ≤ 230) :
    ∃ d : ℚ, decode_temperature (heater_payload c) = some d ∧ |d - c| ≤ 1/10 := by
  have hclamp : max 40 (min c 230) = c := by
    rw [min_eq_left h2, max_eq_right h1]
  have hfl : (0:ℤ) ≤ ⌊c * 10⌋ := by
    apply Int.le_floor.mpr
    push_cast
    linarith
  have hub : ⌊c * 10⌋ ≤ 2300 := by
    have hc10 : c * 10 ≤ ((2300:ℚ)) := by linarith
    have := Int.floor_le_floor hc10
    simpa using this
  have hcast : ((⌊c * 10⌋).toNat : ℤ) = ⌊c * 10⌋ := Int.toNat_of_nonneg hfl
  have hlt : (⌊c * 10⌋).toNat < 65536 := by omega
  refine ⟨((⌊c * 10⌋).toNat : ℚ) / 10, ?_, ?_⟩
  · rw [heater_payload, hclamp, decode_temperature]
    rw [if_pos (by simp [toBytesLE2])]
    have htake : (toBytesLE2 (⌊c * 10⌋).toNat).take 2 = toBytesLE2 (⌊c * 10⌋).toNat := by
      simp [toBytesLE2]
    rw [htake, intFromBytesLE_toBytesLE2 _ hlt]
  · have hnq : (((⌊c * 10⌋).toNat : ℕ) : ℚ) = ((⌊c * 10⌋ : ℤ) : ℚ) := by
      exact_mod_cast congrArg (fun z : ℤ => (z : ℚ)) hcast
    rw [hnq, abs_le]
    have hle : ((⌊c * 10⌋ : ℤ) : ℚ) ≤ c * 10 := Int.floor_le (c * 10)
    have hgt : c * 10 < ((⌊c * 10⌋ : ℤ) : ℚ) + 1 := Int.lt_floor_add_one (c * 10)
    constructor <;> linarith

/-- C6 witness: the round trip at 95 °C. -/
theorem c6_witness :
    ∃ d : ℚ, decode_temperature (heater_payload 95) = some d ∧ |d - 95| ≤ 1/10 :=
  c6_codec_round_trip 95 (by norm_num) (by norm_num)

/-- C7: while connected, setting the auto-shutoff to m minutes (with m * 60
    below 2^16) writes the two-byte little-endian encoding of m * 60
    seconds, and the read path decodes that same payload back to m. -/
theorem c7_auto_shutoff_round_trip (s : Manager) (m : Nat)
    (hconn : s.connected = true) (hcli : s.client = true)
    (hm : m * 60 < 65536) :
    (set_auto_shutoff_setting true s m).2 =
      [⟨UUID_AUTO_SHUT_OFF_SETTING, toBytesLE2 (m * 60)⟩] ∧
    (read_auto_shut_off_setting (toBytesLE2 (m * 60)) s).auto_shut_off_setting =
      some m := by
  constructor
  · simp [set_auto_shutoff_setting, hconn, hcli]
  · simp [read_auto_shut_off_setting, hconn, hcli, toBytesLE2, intFromBytesLE]
    omega

/-- C7 witness: the round trip at 30 minutes (1800 seconds). -/
theorem c7_witness :
    (set_auto_shutoff_setting true connectedManager 30).2 =
      [⟨UUID_AUTO_SHUT_OFF_SETTING, toBytesLE2 (30 * 60)⟩] ∧
    (read_auto_shut_off_setting (toBytesLE2 (30 * 60))
        connectedManager).auto_shut_off_setting = some 30 :=
  c7_auto_shutoff_round_trip connectedManager 30 rfl rfl (by norm_num)

/-- C8: user disconnect is idempotent — a second call arriving while the
    manager is already disconnected returns the state, connection status
    included, unchanged. -/
theorem c8_disconnect_idempotent (s : Manager) :
    async_user_disconnect (async_user_disconnect s) = async_user_disconnect s ∧
    (s.connected = false → async_user_disconnect s = s) := by
  constructor
  · cases hs : s.connected <;> simp [async_user_disconnect, stop, hs]
  · intro h
    simp [async_user_disconnect, h]

/-- C8 witness: disconnecting the freshly initialized manager is a no-op. -/
theorem c8_witness : async_user_disconnect initManager = initManager :=
  (c8_disconnect_idempotent initManager).2 rfl

/-- C9: the bt_status setter notifies sensors exactly when the assigned
    value differs from the stored one; assigning the stored value changes
    nothing and fires no callback; a different value is stored and fires
    exactly one notification round. -/
theorem c9_status_setter (s : Manager) (v : String) :
    ((set_bt_status s v).2 = true ↔ s.bt_status ≠ v) ∧
    (s.bt_status = v → set_bt_status s v = (s, false)) ∧
    (s.bt_status ≠ v → set_bt_status s v = ({ s with bt_status := v }, true)) := by
  by_cases h : s.bt_status = v <;> simp [set_bt_status, h]

/-- C9 witness: assigning the already-held DISCONNECTED status to the fresh
    manager changes nothing and fires no callback. -/
theorem c9_witness :
    set_bt_status initManager BT_STATUS_DISCONNECTED = (initManager, false) :=
  (c9_status_setter initManager BT_STATUS_DISCONNECTED).2.1 rfl

/-- C10: while connected, with a four-byte control-register read, the value
    written back to the register has bit 10 equal to the request and every
    other bit equal to the value that was read. -/
theorem c10_vibration_frame (s : Manager) (b0 b1 b2 b3 : Nat)
    (rest reRead : List Nat) (enabled : Bool)
    (hconn : s.connected = true) (hcli : s.client = true)
    (h0 : b0 < 256) (h1 : b1 < 256) (h2 : b2 < 256) (h3 : b3 < 256) :
    (set_vibration s (b0 :: b1 :: b2 :: b3 :: rest) reRead enabled).2 =
      [⟨REGISTER3_UUID,
        toBytesLE4 (new_control_value (intFromBytesLE [b0, b1, b2, b3]) enabled)⟩] ∧
    (new_control_value (intFromBytesLE [b0, b1, b2, b3]) enabled).testBit 10 = enabled ∧
    (∀ i, i ≠ 10 →
      (new_control_value (intFromBytesLE [b0, b1, b2, b3]) enabled).testBit i =
        (intFromBytesLE [b0, b1, b2, b3]).testBit i) := by
  have hv : intFromBytesLE [b0, b1, b2, b3] < 4294967296 := by
    simp [intFromBytesLE]
    omega
  have hmask : (0xFFFFFFFF ^^^ VIBRATION_BIT_MASK : Nat) = 4294966271 := by decide
  refine ⟨?_, ?_, ?_⟩
  · simp [set_vibration, hconn, hcli, intFromBytesLE]
  · cases enabled
    · have hb : Nat.testBit 4294966271 10 = false := by decide
      simp [new_control_value, hmask, Nat.testBit_and, hb]
    · have hb : Nat.testBit VIBRATION_BIT_MASK 10 = true := by decide
      simp [new_control_value, Nat.testBit_or, hb]
  · intro i hi
    cases enabled
    · simp only [new_control_value, if_neg Bool.false_ne_true, hmask, Nat.testBit_and]
      rcases Nat.lt_or_ge i 32 with h32 | h32
      · rw [mask_bits i h32 hi, Bool.and_true]
      · have hpow : (4294967296:ℕ) ≤ 2 ^ i := by
          calc (4294967296:ℕ) = 2 ^ 32 := by norm_num
          _ ≤ 2 ^ i := Nat.pow_le_pow_right (by norm_num) h32
        have hvi : (intFromBytesLE [b0, b1, b2, b3]).testBit i = false :=
          Nat.testBit_lt_two_pow (lt_of_lt_of_le hv hpow)
        have hmi : Nat.testBit 4294966271 i = false :=
          Nat.testBit_lt_two_pow (lt_of_lt_of_le (by norm_num) hpow)
        rw [hvi, hmi, Bool.false_and]
    · have hb : Nat.testBit VIBRATION_BIT_MASK i = false := by
        rw [show (VIBRATION_BIT_MASK:ℕ) = 2 ^ 10 by decide]
        exact Nat.testBit_two_pow_of_ne (Ne.symm hi)
      simp [new_control_value, Nat.testBit_or, hb]

/-- C10 witness: the frame property at register bytes [1, 2, 3, 4] when
    enabling, checked on bit 10 and on the unrelated bit 3. -/
theorem c10_witness :
    (set_vibration connectedManager [1, 2, 3, 4] [] true).2 =
      [⟨REGISTER3_UUID,
        toBytesLE4 (new_control_value (intFromBytesLE [1, 2, 3, 4]) true)⟩] ∧
    (new_control_value (intFromBytesLE [1, 2, 3, 4]) true).testBit 10 = true ∧
    (new_control_value (intFromBytesLE [1, 2, 3, 4]) true).testBit 3 =
      (intFromBytesLE [1, 2, 3, 4]).testBit 3 := by
  have h := c10_vibration_frame connectedManager 1 2 3 4 [] [] true rfl rfl
    (by norm_num) (by norm_num) (by norm_num) (by norm_num)
  exact ⟨h.1, h.2.1, h.2.2 3 (by norm_num)⟩

end Volcano
